import Mathlib

/-!
Shallow embedding of `src/main.cpp` of the opengl-template repository.

The program is modelled as a trace generator: every OpenGL / GLFW call the
program makes is recorded as an `Event`.  The outside world (whether window
creation succeeds, whether GLAD loads, whether each shader compiles, whether
the driver reports a successful link, which keys are pressed at each render
iteration, whether the OS delivers a close request) is an oracle `Env`.
The render loop is driven by a fuel parameter, since the real loop need not
terminate; `programRun env fuel` returns the trace of events emitted and
`some code` when the process exited (via `std::exit` or returning from
`main`) within `fuel` loop iterations, `none` otherwise.
-/

namespace OpenGLTemplate

/-! Numeric constants, with the values from the GLFW and OpenGL headers. -/

def GLFW_CONTEXT_VERSION_MAJOR : Nat := 0x00022002

def GLFW_CONTEXT_VERSION_MINOR : Nat := 0x00022003

def GLFW_OPENGL_PROFILE : Nat := 0x00022008

def GLFW_OPENGL_CORE_PROFILE : Nat := 0x00032001

def GLFW_KEY_ESCAPE : Nat := 256

def GLFW_PRESS : Nat := 1

def GLFW_RELEASE : Nat := 0

def GL_COLOR_BUFFER_BIT : Nat := 0x00004000

def GL_ARRAY_BUFFER : Nat := 0x8892

def GL_STATIC_DRAW : Nat := 0x88E4

def GL_FLOAT : Nat := 0x1406

def GL_TRIANGLES : Nat := 0x0004

def GL_VERTEX_SHADER : Nat := 0x8B31

def GL_FRAGMENT_SHADER : Nat := 0x8B30

def GL_COMPILE_STATUS : Nat := 0x8B81

/-- Object ids handed out by the GL driver model.  The program creates the
vertex shader first, then the fragment shader, then the program object; the
model hands out consecutive ids, mirroring typical driver behaviour. -/
def vertex_shader_id : Nat := 1

def fragment_shader_id : Nat := 2

def shader_program_id : Nat := 3

def vao_id : Nat := 1

def vbo_id : Nat := 1

/-- The environment oracle: everything the program observes from the
windowing system and the GL driver.  `esc i` says whether the escape key is
observed pressed at iteration `i`'s input check; `osClose i` says whether
event polling at iteration `i` delivers an OS close request. -/
structure Env where
  glfwInitOk : Bool
  windowOk : Bool
  gladOk : Bool
  vsOk : Bool
  fsOk : Bool
  linkOk : Bool
  vsLog : List Char
  fsLog : List Char
  esc : Nat → Bool
  osClose : Nat → Bool

/-- One event per API call (or standard-output write) the program performs.
Result-bearing calls record the oracle's answer in the event.
`glGetProgramiv`, `glBufferSubData` and `glDrawElements` are part of the
vocabulary but are never emitted by this program: theorems about their
absence state that the program never queries link status, never rewrites
the vertex buffer, and never issues an indexed draw. -/
inductive Event where
  | glfwInit (ok : Bool)
  | glfwWindowHint (hint value : Nat)
  | glfwCreateWindow (width height : Nat) (title : String) (ok : Bool)
  | printOut (msg : String)
  | printCompileError (header : String) (log : List Char)
  | glfwTerminate
  | glfwMakeContextCurrent
  | gladLoadGLLoader (ok : Bool)
  | glViewport (x y width height : Int)
  | glfwSetFramebufferSizeCallback
  | glCreateShader (shaderType id : Nat)
  | glShaderSource (id : Nat) (src : String)
  | glCompileShader (id : Nat) (ok : Bool)
  | glGetShaderiv (id pname : Nat) (result : Bool)
  | glGetShaderInfoLog (id bufSize : Nat) (log : List Char)
  | glGetProgramiv (prog pname : Nat)
  | glCreateProgram (id : Nat)
  | glAttachShader (prog shader : Nat)
  | glLinkProgram (prog : Nat) (ok : Bool)
  | glUseProgram (prog : Nat)
  | glDeleteShader (id : Nat)
  | glGenVertexArrays (id : Nat)
  | glGenBuffers (id : Nat)
  | glBindVertexArray (id : Nat)
  | glBindBuffer (target id : Nat)
  | glBufferData (target : Nat) (data : List ℚ) (usage : Nat)
  | glBufferSubData (target : Nat) (data : List ℚ)
  | glVertexAttribPointer (index size typ : Nat) (normalized : Bool) (stride offset : Nat)
  | glEnableVertexAttribArray (index : Nat)
  | glfwGetKey (key status : Nat)
  | glfwSetWindowShouldClose (value : Bool)
  | glClearColor (r g b a : ℚ)
  | glClear (mask : Nat)
  | glDrawArrays (mode first count : Nat)
  | glDrawElements (mode count : Nat)
  | glfwSwapBuffers
  | glfwPollEvents
  | glDeleteVertexArrays (id : Nat)
  | glDeleteBuffers (id : Nat)
  | glDeleteProgram (id : Nat)
  deriving DecidableEq, Repr

/-- Result of a straight-line code section: either the process called
`std::exit code`, or the section finished normally with a value. -/
inductive ProcResult (α : Type) where
  | exited (code : Int)
  | ok (val : α)
  deriving DecidableEq, Repr

/-- The hardcoded vertex shader source string from `main.cpp`. -/
def vertex_shader_source : String :=
  "#version 330 core\nlayout(location=0) in vec3 aPos;\nvoid main() \x7b\n    gl_Position = vec4(aPos.x, aPos.y, aPos.z, 1.0);\n\x7d"

/-- The hardcoded fragment shader source string from `main.cpp`. -/
def fragment_shader_source : String :=
  "#version 330 core\nout vec4 FragColor;\nvoid main() \x7b\n    FragColor = vec4(1.0f, 0.5f, 0.2f, 1.0f);\n\x7d"

/-- The `vertices` array from `main`: three vertices, three float components
each.  The float literals are exact dyadic rationals, modelled in ℚ. -/
def vertices : List ℚ :=
  [-(1/2), -(1/2), 0, 1/2, -(1/2), 0, 0, 1/2, 0]

/-- Embedding of `init_window`: `glfwInit` (result ignored), three window
hints, window creation (print + `glfwTerminate` + `exit(-1)` on failure),
make-context-current, GLAD loading (print + `exit(-1)` on failure, with no
`glfwTerminate`), the initial viewport and the resize-callback hookup. -/
def init_window (env : Env) : List Event × ProcResult Unit :=
  let pre : List Event :=
    [Event.glfwInit env.glfwInitOk,
     Event.glfwWindowHint GLFW_CONTEXT_VERSION_MAJOR 3,
     Event.glfwWindowHint GLFW_CONTEXT_VERSION_MINOR 3,
     Event.glfwWindowHint GLFW_OPENGL_PROFILE GLFW_OPENGL_CORE_PROFILE,
     Event.glfwCreateWindow 800 600 "OpenGL Template" env.windowOk]
  if env.windowOk then
    let t2 := pre ++ [Event.glfwMakeContextCurrent, Event.gladLoadGLLoader env.gladOk]
    if env.gladOk then
      (t2 ++ [Event.glViewport 0 0 800 600, Event.glfwSetFramebufferSizeCallback],
       ProcResult.ok ())
    else
      (t2 ++ [Event.printOut "Failed to initialize GLAD"], ProcResult.exited (-1))
  else
    (pre ++ [Event.printOut "Failed to create GLFW window", Event.glfwTerminate],
     ProcResult.exited (-1))

/-- Embedding of `framebuffer_size_callback`: re-applies the viewport with
origin (0,0) and exactly the new framebuffer width and height. -/
def framebuffer_size_callback (width height : Int) : List Event :=
  [Event.glViewport 0 0 width height]

/-- Embedding of `process_input`: queries the escape key; if pressed,
requests window close. -/
def process_input (escPressed : Bool) : List Event :=
  if escPressed then
    [Event.glfwGetKey GLFW_KEY_ESCAPE GLFW_PRESS,
     Event.glfwSetWindowShouldClose true]
  else
    [Event.glfwGetKey GLFW_KEY_ESCAPE GLFW_RELEASE]

/-- Embedding of `get_shader_program`: compile the vertex shader and check
its status (fatal on failure, with a 512-byte log buffer); compile the
fragment shader; create, attach, link and activate the program; only then
check the fragment shader's status (same fatal policy); delete the two
intermediate shader objects; return the program id.  The driver's log is
truncated to at most 511 characters, since `glGetShaderInfoLog` with a
512-byte buffer reserves one byte for the terminator. -/
def get_shader_program (env : Env) : List Event × ProcResult Nat :=
  let t1 : List Event :=
    [Event.glCreateShader GL_VERTEX_SHADER vertex_shader_id,
     Event.glShaderSource vertex_shader_id vertex_shader_source,
     Event.glCompileShader vertex_shader_id env.vsOk,
     Event.glGetShaderiv vertex_shader_id GL_COMPILE_STATUS env.vsOk]
  if env.vsOk then
    let t2 := t1 ++
      [Event.glCreateShader GL_FRAGMENT_SHADER fragment_shader_id,
       Event.glShaderSource fragment_shader_id fragment_shader_source,
       Event.glCompileShader fragment_shader_id env.fsOk,
       Event.glCreateProgram shader_program_id,
       Event.glAttachShader shader_program_id vertex_shader_id,
       Event.glAttachShader shader_program_id fragment_shader_id,
       Event.glLinkProgram shader_program_id env.linkOk,
       Event.glUseProgram shader_program_id,
       Event.glGetShaderiv fragment_shader_id GL_COMPILE_STATUS env.fsOk]
    if env.fsOk then
      (t2 ++ [Event.glDeleteShader vertex_shader_id,
              Event.glDeleteShader fragment_shader_id],
       ProcResult.ok shader_program_id)
    else
      (t2 ++ [Event.glGetShaderInfoLog fragment_shader_id 512 (env.fsLog.take 511),
              Event.printCompileError
                "Fatal Error - Compilation of fragment shader failed:\n"
                (env.fsLog.take 511)],
       ProcResult.exited (-1))
  else
    (t1 ++ [Event.glGetShaderInfoLog vertex_shader_id 512 (env.vsLog.take 511),
            Event.printCompileError
              "Fatal Error - Compilation of vertex shader failed:\n"
              (env.vsLog.take 511)],
     ProcResult.exited (-1))

/-- The geometry upload in `main`, between `get_shader_program` and the
render loop: generate the VAO and VBO, bind them, upload the 9 floats with
`GL_STATIC_DRAW`, declare attribute 0 as 3 floats with stride 12 and offset
0, enable it, and unbind both objects. -/
def setupEvents : List Event :=
  [Event.glGenVertexArrays vao_id,
   Event.glGenBuffers vbo_id,
   Event.glBindVertexArray vao_id,
   Event.glBindBuffer GL_ARRAY_BUFFER vbo_id,
   Event.glBufferData GL_ARRAY_BUFFER vertices GL_STATIC_DRAW,
   Event.glVertexAttribPointer 0 3 GL_FLOAT false 12 0,
   Event.glEnableVertexAttribArray 0,
   Event.glBindBuffer GL_ARRAY_BUFFER 0,
   Event.glBindVertexArray 0]

/-- One body of the render loop at iteration `i`: input check, clear to the
fixed background color, activate program and vertex format, one draw call
of 3 vertices, present, poll events. -/
def iterationEvents (env : Env) (progId vaoId : Nat) (i : Nat) : List Event :=
  process_input (env.esc i) ++
  [Event.glClearColor (1/5) (3/10) (3/10) 1,
   Event.glClear GL_COLOR_BUFFER_BIT,
   Event.glUseProgram progId,
   Event.glBindVertexArray vaoId,
   Event.glDrawArrays GL_TRIANGLES 0 3,
   Event.glfwSwapBuffers,
   Event.glfwPollEvents]

/-- The render loop.  `shouldClose` is the window's close flag at the top
of the loop; iteration `i` sets it when the escape key is pressed
(`process_input`) or when event polling delivers an OS close request.
Returns the events of the iterations run within `fuel` steps, and `true`
iff the loop observed the close flag and exited. -/
def runLoop (env : Env) (progId vaoId : Nat) : Nat → Nat → Bool → List Event × Bool
  | 0, _, _ => ([], false)
  | fuel + 1, i, shouldClose =>
    if shouldClose then ([], true)
    else
      let next := runLoop env progId vaoId fuel (i + 1) (env.esc i || env.osClose i)
      (iterationEvents env progId vaoId i ++ next.1, next.2)

/-- The teardown at the end of `main`: release the VAO, the VBO and the
shader program, then tear down GLFW. -/
def teardownEvents : List Event :=
  [Event.glDeleteVertexArrays vao_id,
   Event.glDeleteBuffers vbo_id,
   Event.glDeleteProgram shader_program_id,
   Event.glfwTerminate]

/-- Embedding of `main`: window/context setup, shader program build,
geometry upload, the render loop, teardown, `return 0`.  Returns the trace
of the whole run and `some code` when the process exited within `fuel`
loop iterations, `none` when fuel ran out inside the loop. -/
def programRun (env : Env) (fuel : Nat) : List Event × Option Int :=
  match init_window env with
  | (t1, ProcResult.exited c) => (t1, some c)
  | (t1, ProcResult.ok _) =>
    match get_shader_program env with
    | (t2, ProcResult.exited c) => (t1 ++ t2, some c)
    | (t2, ProcResult.ok progId) =>
      let loop := runLoop env progId vao_id fuel 0 false
      if loop.2 then
        (t1 ++ t2 ++ setupEvents ++ loop.1 ++ teardownEvents, some 0)
      else
        (t1 ++ t2 ++ setupEvents ++ loop.1, none)

/-! Observation predicates over events. -/

/-- A draw call of either kind (array draw or indexed draw). -/
def isDraw : Event → Bool
  | Event.glDrawArrays _ _ _ => true
  | Event.glDrawElements _ _ => true
  | _ => false

/-- Number of draw calls in a trace. -/
def drawCount (t : List Event) : Nat := t.countP isDraw

/-- A write into a buffer object's data store. -/
def isBufferWrite : Event → Bool
  | Event.glBufferData _ _ _ => true
  | Event.glBufferSubData _ _ => true
  | _ => false

/-- A query of a program object's parameters (this is the only GL call that
could read link status). -/
def isLinkStatusQuery : Event → Bool
  | Event.glGetProgramiv _ _ => true
  | _ => false

/-- A release of one of the three long-lived GPU objects, or the GLFW
teardown call. -/
def isTeardownOp : Event → Bool
  | Event.glDeleteVertexArrays _ => true
  | Event.glDeleteBuffers _ => true
  | Event.glDeleteProgram _ => true
  | Event.glfwTerminate => true
  | _ => false

/-- Erases the driver's answer from the link event, for stating that the
program's behaviour does not depend on whether linking succeeded. -/
def scrubLink : Event → Event
  | Event.glLinkProgram p _ => Event.glLinkProgram p true
  | e => e

/-- Erases the result of `glfwInit`, for stating that the program's
behaviour does not depend on whether GLFW initialisation succeeded. -/
def scrubGlfwInit : Event → Event
  | Event.glfwInit _ => Event.glfwInit true
  | e => e

/-! Concrete environments used as witnesses. -/

/-- An environment where everything succeeds and escape is pressed at every
iteration. -/
def envAllOk : Env :=
  { glfwInitOk := true, windowOk := true, gladOk := true, vsOk := true,
    fsOk := true, linkOk := true, vsLog := [], fsLog := [],
    esc := fun _ => true, osClose := fun _ => false }

/-- Same as `envAllOk` but window creation fails. -/
def envNoWindow : Env := { envAllOk with windowOk := false }

/-- Same as `envAllOk` but GLAD fails to load. -/
def envNoGlad : Env := { envAllOk with gladOk := false }

/-- Same as `envAllOk` but the vertex shader fails to compile, with a
driver log. -/
def envBadVS : Env :=
  { envAllOk with vsOk := false, vsLog := String.toList "0:1(1): error: syntax error" }

/-- Same as `envAllOk` but the fragment shader fails to compile. -/
def envBadFS : Env :=
  { envAllOk with fsOk := false, fsLog := String.toList "0:2(1): error: syntax error" }

/-! Helper lemmas about the render loop. -/

/-- With the close flag set, the loop emits nothing, and exits provided it
gets at least one condition check. -/
theorem runLoop_flag (env : Env) (p v : Nat) (fuel i : Nat) :
    (runLoop env p v fuel i true).1 = [] ∧
      (1 ≤ fuel → (runLoop env p v fuel i true).2 = true) := by
  cases fuel <;> simp [runLoop]

/-- Any per-iteration-empty filter is empty over the whole loop trace. -/
theorem runLoop_filter_nil (P : Event → Bool)
    (hP : ∀ (env : Env) (p v i : Nat), (iterationEvents env p v i).filter P = [])
    (env : Env) (p v : Nat) :
    ∀ (fuel i : Nat) (sc : Bool), ((runLoop env p v fuel i sc).1).filter P = [] := by
  intro fuel
  induction fuel with
  | zero => intro i sc; simp [runLoop]
  | succ m ih =>
    intro i sc
    cases sc with
    | true => simp [runLoop]
    | false => simp [runLoop, List.filter_append, hP, ih]

/-- Each iteration issues exactly one draw call. -/
theorem drawCount_iterationEvents (env : Env) (p v i : Nat) :
    drawCount (iterationEvents env p v i) = 1 := by
  cases h : env.esc i <;>
    simp [drawCount, iterationEvents, process_input, h, isDraw, List.countP_cons]

/-- Once some iteration `n` observes the close condition, the loop's
condition check exits the loop, given fuel to reach it. -/
theorem runLoop_closes (env : Env) (p v n : Nat)
    (h : (env.esc n || env.osClose n) = true) :
    ∀ (fuel i : Nat) (sc : Bool), i ≤ n → n + 2 ≤ i + fuel →
      (runLoop env p v fuel i sc).2 = true := by
  intro fuel
  induction fuel with
  | zero => intro i sc hi hf; omega
  | succ m ih =>
    intro i sc hi hf
    cases sc with
    | true => simp [runLoop]
    | false =>
      simp only [runLoop, if_neg Bool.false_ne_true]
      rcases eq_or_lt_of_le hi with rfl | hlt
      · rw [h]
        exact (runLoop_flag env p v m (i + 1)).2 (by omega)
      · exact ih (i + 1) _ (by omega) (by omega)

/-- If escape is pressed at iteration `n`, at most the iterations
`0, …, n` run, so at most `n + 1 - i` draw calls are issued from
iteration `i` on. -/
theorem runLoop_drawCount_le (env : Env) (p v n : Nat) (h : env.esc n = true) :
    ∀ (fuel i : Nat) (sc : Bool), i ≤ n →
      drawCount (runLoop env p v fuel i sc).1 ≤ n + 1 - i := by
  intro fuel
  induction fuel with
  | zero => intro i sc hi; simp [runLoop, drawCount]
  | succ m ih =>
    intro i sc hi
    cases sc with
    | true => simp [runLoop, drawCount]
    | false =>
      simp only [runLoop, if_neg Bool.false_ne_true]
      have hone : List.countP isDraw (iterationEvents env p v i) = 1 :=
        drawCount_iterationEvents env p v i
      have hsplit : drawCount (iterationEvents env p v i ++
          (runLoop env p v m (i + 1) (env.esc i || env.osClose i)).1) =
          1 + drawCount (runLoop env p v m (i + 1) (env.esc i || env.osClose i)).1 := by
        simp [drawCount, List.countP_append, hone]
      rcases eq_or_lt_of_le hi with rfl | hlt
      · rw [hsplit, h]
        have hnil := (runLoop_flag env p v m (i + 1)).1
        simp only [Bool.true_or] at *
        rw [hnil]
        simp [drawCount]
      · rw [hsplit]
        have := ih (i + 1) (env.esc i || env.osClose i) (by omega)
        omega

/-- The render loop never writes buffer data. -/
theorem runLoop_no_bufferWrite (env : Env) (p v : Nat) (fuel i : Nat) (sc : Bool) :
    ((runLoop env p v fuel i sc).1).filter isBufferWrite = [] := by
  refine runLoop_filter_nil isBufferWrite ?_ env p v fuel i sc
  intro env p v i
  cases h : env.esc i <;> simp [iterationEvents, process_input, h, isBufferWrite]

/-- The render loop never queries program parameters (link status). -/
theorem runLoop_no_linkQuery (env : Env) (p v : Nat) (fuel i : Nat) (sc : Bool) :
    ((runLoop env p v fuel i sc).1).filter isLinkStatusQuery = [] := by
  refine runLoop_filter_nil isLinkStatusQuery ?_ env p v fuel i sc
  intro env p v i
  cases h : env.esc i <;> simp [iterationEvents, process_input, h, isLinkStatusQuery]

/-- The render loop never releases a GPU object nor tears down GLFW. -/
theorem runLoop_no_teardown (env : Env) (p v : Nat) (fuel i : Nat) (sc : Bool) :
    ((runLoop env p v fuel i sc).1).filter isTeardownOp = [] := by
  refine runLoop_filter_nil isTeardownOp ?_ env p v fuel i sc
  intro env p v i
  cases h : env.esc i <;> simp [iterationEvents, process_input, h, isTeardownOp]

/-- The loop trace depends on the environment only through the key and
close oracles. -/
theorem runLoop_congr (env env' : Env) (hesc : env.esc = env'.esc)
    (hos : env.osClose = env'.osClose) (p v : Nat) :
    ∀ (fuel i : Nat) (sc : Bool),
      runLoop env p v fuel i sc = runLoop env' p v fuel i sc := by
  intro fuel
  induction fuel with
  | zero => intro i sc; simp [runLoop]
  | succ m ih =>
    intro i sc
    cases sc with
    | true => simp [runLoop]
    | false => simp [runLoop, iterationEvents, hesc, hos, ih]

/-! Claim theorems. -/

/-- C1: every render-loop iteration entered with the close flag unset
performs, in this exact order: the input check, a clear of the color
buffer to the fixed background color, activation of the shader program and
of the vertex format object, exactly one draw call requesting 3 vertices
with no index buffer (`glDrawArrays GL_TRIANGLES 0 3`), presentation of
the back buffer, and delivery of pending OS/input events; the draw count
of the iteration is exactly 1, so no other draw call is issued. -/
theorem c1_render_loop_iteration (env : Env) (p v i fuel : Nat) :
    runLoop env p v (fuel + 1) i false =
      (iterationEvents env p v i ++
        (runLoop env p v fuel (i + 1) (env.esc i || env.osClose i)).1,
       (runLoop env p v fuel (i + 1) (env.esc i || env.osClose i)).2) ∧
    iterationEvents env p v i =
      process_input (env.esc i) ++
      [Event.glClearColor (1/5) (3/10) (3/10) 1,
       Event.glClear GL_COLOR_BUFFER_BIT,
       Event.glUseProgram p,
       Event.glBindVertexArray v,
       Event.glDrawArrays GL_TRIANGLES 0 3,
       Event.glfwSwapBuffers,
       Event.glfwPollEvents] ∧
    drawCount (iterationEvents env p v i) = 1 :=
  ⟨by simp [runLoop], rfl, drawCount_iterationEvents env p v i⟩

/-- C6: for every framebuffer resize event delivered to the resize
callback, the viewport passed to the graphics API is exactly
`(0, 0, width, height)` with the new framebuffer dimensions. -/
theorem c6_resize_viewport (width height : Int) :
    framebuffer_size_callback width height = [Event.glViewport 0 0 width height] :=
  rfl

/-- C3: on a run that reaches the render loop, the whole trace contains
exactly one buffer-write operation — the startup `glBufferData` upload of
the 9 floats {-0.5, -0.5, 0, 0.5, -0.5, 0, 0, 0.5, 0} in that order —
regardless of how many frames have rendered; no operation in the render
loop or elsewhere ever writes the buffer again. -/
theorem c3_vertex_buffer_immutable (env : Env) (fuel : Nat)
    (hw : env.windowOk = true) (hg : env.gladOk = true)
    (hv : env.vsOk = true) (hf : env.fsOk = true) :
    (programRun env fuel).1.filter isBufferWrite =
      [Event.glBufferData GL_ARRAY_BUFFER vertices GL_STATIC_DRAW] ∧
    vertices = [-(1/2 : ℚ), -(1/2), 0, 1/2, -(1/2), 0, 0, 1/2, 0] ∧
    vertices.length = 9 := by
  refine ⟨?_, rfl, rfl⟩
  have hloop := runLoop_no_bufferWrite env shader_program_id vao_id fuel 0 false
  cases hl : (runLoop env shader_program_id vao_id fuel 0 false).2 <;>
    simp [programRun, init_window, get_shader_program, hw, hg, hv, hf, hl,
      List.filter_append, hloop, setupEvents, teardownEvents, isBufferWrite]

/-- Witness for C3 at a concrete all-success environment. -/
theorem c3_vertex_buffer_immutable_witness :
    (programRun envAllOk 3).1.filter isBufferWrite =
      [Event.glBufferData GL_ARRAY_BUFFER vertices GL_STATIC_DRAW] ∧
    vertices = [-(1/2 : ℚ), -(1/2), 0, 1/2, -(1/2), 0, 0, 1/2, 0] ∧
    vertices.length = 9 :=
  c3_vertex_buffer_immutable envAllOk 3 rfl rfl rfl rfl

/-- C2: the process exits with status 0 on normal window-close exit, and
with status -1 on each of the four failure paths (window creation, GLAD
function-pointer loading, vertex-shader compile, fragment-shader
compile); each failure path prints a diagnostic to standard output before
terminating, shader-compile diagnostics carry at most 512 characters of
the driver's log, and no failure path issues any draw call (the render
loop is never reached). -/
theorem c2_exit_codes (env : Env) (n fuel : Nat) :
    (env.windowOk = true → env.gladOk = true → env.vsOk = true → env.fsOk = true →
      (env.esc n || env.osClose n) = true → n + 2 ≤ fuel →
      (programRun env fuel).2 = some 0) ∧
    (env.windowOk = false →
      (programRun env fuel).2 = some (-1) ∧
      Event.printOut "Failed to create GLFW window" ∈ (programRun env fuel).1 ∧
      drawCount (programRun env fuel).1 = 0) ∧
    (env.windowOk = true → env.gladOk = false →
      (programRun env fuel).2 = some (-1) ∧
      Event.printOut "Failed to initialize GLAD" ∈ (programRun env fuel).1 ∧
      drawCount (programRun env fuel).1 = 0) ∧
    (env.windowOk = true → env.gladOk = true → env.vsOk = false →
      (programRun env fuel).2 = some (-1) ∧
      Event.printCompileError "Fatal Error - Compilation of vertex shader failed:\n"
        (env.vsLog.take 511) ∈ (programRun env fuel).1 ∧
      (env.vsLog.take 511).length ≤ 512 ∧
      drawCount (programRun env fuel).1 = 0) ∧
    (env.windowOk = true → env.gladOk = true → env.vsOk = true → env.fsOk = false →
      (programRun env fuel).2 = some (-1) ∧
      Event.printCompileError "Fatal Error - Compilation of fragment shader failed:\n"
        (env.fsLog.take 511) ∈ (programRun env fuel).1 ∧
      (env.fsLog.take 511).length ≤ 512 ∧
      drawCount (programRun env fuel).1 = 0) := by
  refine ⟨?_, ?_, ?_, ?_, ?_⟩
  · intro hw hg hv hf hc hfuel
    have hdone := runLoop_closes env shader_program_id vao_id n hc fuel 0 false
      (Nat.zero_le n) (by omega)
    simp [programRun, init_window, get_shader_program, hw, hg, hv, hf, hdone]
  · intro hw
    simp [programRun, init_window, hw, drawCount, isDraw, List.countP_cons]
  · intro hw hg
    simp [programRun, init_window, hw, hg, drawCount, isDraw, List.countP_cons]
  · intro hw hg hv
    have hlen : (env.vsLog.take 511).length ≤ 512 := by
      simp [List.length_take]
    simp [programRun, init_window, get_shader_program, hw, hg, hv, hlen,
      drawCount, isDraw, List.countP_cons]
  · intro hw hg hv hf
    have hlen : (env.fsLog.take 511).length ≤ 512 := by
      simp [List.length_take]
    simp [programRun, init_window, get_shader_program, hw, hg, hv, hf, hlen,
      drawCount, isDraw, List.countP_cons]

/-- Witness for C2: each of the five exit paths at a concrete
environment. -/
theorem c2_exit_codes_witness :
    (programRun envAllOk 2).2 = some 0 ∧
    (programRun envNoWindow 2).2 = some (-1) ∧
    (programRun envNoGlad 2).2 = some (-1) ∧
    (programRun envBadVS 2).2 = some (-1) ∧
    (programRun envBadFS 2).2 = some (-1) :=
  ⟨(c2_exit_codes envAllOk 0 2).1 rfl rfl rfl rfl rfl (by omega),
   ((c2_exit_codes envNoWindow 0 2).2.1 rfl).1,
   ((c2_exit_codes envNoGlad 0 2).2.2.1 rfl rfl).1,
   ((c2_exit_codes envBadVS 0 2).2.2.2.1 rfl rfl rfl).1,
   ((c2_exit_codes envBadFS 0 2).2.2.2.2 rfl rfl rfl rfl).1⟩

/-- C4: if escape is observed pressed at iteration `n`, the close flag is
set during that iteration, so the loop condition check (which precedes the
next input check) exits the loop: at most the `n + 1` iterations
`0, …, n` ever draw, and with enough fuel the run reaches the normal exit
with status 0; no draw call is issued after the loop exits. -/
theorem c4_escape_closes (env : Env) (n fuel : Nat) (h : env.esc n = true) :
    drawCount (programRun env fuel).1 ≤ n + 1 ∧
    (env.windowOk = true → env.gladOk = true → env.vsOk = true → env.fsOk = true →
      n + 2 ≤ fuel → (programRun env fuel).2 = some 0) := by
  constructor
  · have hloopdc : List.countP isDraw
        (runLoop env shader_program_id vao_id fuel 0 false).1 ≤ n + 1 - 0 :=
      runLoop_drawCount_le env shader_program_id vao_id n h fuel 0 false (Nat.zero_le n)
    cases hw : env.windowOk
    · simp [programRun, init_window, hw, drawCount, isDraw, List.countP_cons]
    · cases hg : env.gladOk
      · simp [programRun, init_window, hw, hg, drawCount, isDraw, List.countP_cons]
      · cases hv : env.vsOk
        · simp [programRun, init_window, get_shader_program, hw, hg, hv,
            drawCount, isDraw, List.countP_cons]
        · cases hf : env.fsOk
          · simp [programRun, init_window, get_shader_program, hw, hg, hv, hf,
              drawCount, isDraw, List.countP_cons]
          · cases hl : (runLoop env shader_program_id vao_id fuel 0 false).2 <;>
              simp [programRun, init_window, get_shader_program, hw, hg, hv, hf, hl,
                setupEvents, teardownEvents,
                drawCount, isDraw, List.countP_append, List.countP_cons] <;>
              omega
  · intro hw hg hv hf hfuel
    have hdone := runLoop_closes env shader_program_id vao_id n
      (by simp [h]) fuel 0 false (Nat.zero_le n) (by omega)
    simp [programRun, init_window, get_shader_program, hw, hg, hv, hf, hdone]

/-- Witness for C4 at a concrete environment with escape pressed at
iteration 0. -/
theorem c4_escape_closes_witness :
    drawCount (programRun envAllOk 2).1 ≤ 1 ∧ (programRun envAllOk 2).2 = some 0 :=
  ⟨(c4_escape_closes envAllOk 0 2 rfl).1,
   (c4_escape_closes envAllOk 0 2 rfl).2 rfl rfl rfl rfl (by omega)⟩

/-- C5: the link status of the shader program is never checked: no run
ever emits a program-parameter query; the trace (up to the driver's answer
recorded inside the link event itself) and the exit status are the same
whatever the link outcome; every render-loop iteration activates the
program handle; and on the success path the (possibly broken) handle is
what `get_shader_program` returns into the render loop. -/
theorem c5_link_status_unchecked (env : Env) (fuel : Nat) (b : Bool) :
    ((programRun { env with linkOk := b } fuel).1.map scrubLink =
      (programRun env fuel).1.map scrubLink) ∧
    (programRun { env with linkOk := b } fuel).2 = (programRun env fuel).2 ∧
    (programRun env fuel).1.filter isLinkStatusQuery = [] ∧
    (∀ p v i, Event.glUseProgram p ∈ iterationEvents env p v i) ∧
    (env.vsOk = true → env.fsOk = true →
      (get_shader_program env).2 = ProcResult.ok shader_program_id) := by
  obtain ⟨g, w, gl, vs, fs, lk, vl, fg, e, o⟩ := env
  have hloop := runLoop_congr ⟨g, w, gl, vs, fs, b, vl, fg, e, o⟩
    ⟨g, w, gl, vs, fs, lk, vl, fg, e, o⟩ rfl rfl
  refine ⟨?_, ?_, ?_, ?_, ?_⟩
  · cases w
    · simp [programRun, init_window]
    · cases gl
      · simp [programRun, init_window]
      · cases vs
        · simp [programRun, init_window, get_shader_program]
        · cases fs
          · simp [programRun, init_window, get_shader_program, scrubLink]
          · cases hl : (runLoop ⟨g, true, true, true, true, lk, vl, fg, e, o⟩
                shader_program_id vao_id fuel 0 false).2 <;>
              simp [programRun, init_window, get_shader_program, hloop, hl, scrubLink]
  · cases w
    · simp [programRun, init_window]
    · cases gl
      · simp [programRun, init_window]
      · cases vs
        · simp [programRun, init_window, get_shader_program]
        · cases fs
          · simp [programRun, init_window, get_shader_program]
          · cases hl : (runLoop ⟨g, true, true, true, true, lk, vl, fg, e, o⟩
                shader_program_id vao_id fuel 0 false).2 <;>
              simp [programRun, init_window, get_shader_program, hloop, hl]
  · cases w
    · simp [programRun, init_window, isLinkStatusQuery]
    · cases gl
      · simp [programRun, init_window, isLinkStatusQuery]
      · cases vs
        · simp [programRun, init_window, get_shader_program, isLinkStatusQuery]
        · cases fs
          · simp [programRun, init_window, get_shader_program, isLinkStatusQuery]
          · cases hl : (runLoop ⟨g, true, true, true, true, lk, vl, fg, e, o⟩
                shader_program_id vao_id fuel 0 false).2 <;>
              simp [programRun, init_window, get_shader_program, hl,
                setupEvents, teardownEvents, List.filter_append,
                runLoop_no_linkQuery, isLinkStatusQuery]
  · intro p v i
    cases h : e i <;> simp [iterationEvents, process_input, h]
  · intro hv hf
    simp only at hv hf
    subst hv
    subst hf
    simp [get_shader_program]

/-- Witness for C5's success-path conjunct at a concrete environment. -/
theorem c5_link_status_unchecked_witness :
    (get_shader_program envAllOk).2 = ProcResult.ok shader_program_id ∧
    (programRun { envAllOk with linkOk := false } 2).2 = (programRun envAllOk 2).2 :=
  ⟨(c5_link_status_unchecked envAllOk 2 false).2.2.2.2 rfl rfl,
   (c5_link_status_unchecked envAllOk 2 false).2.1⟩

/-- C7: on the normal-exit path the trace is some prefix containing no
release operation, followed by exactly the four teardown events — the VAO,
VBO and shader-program deletes, then the GLFW teardown strictly last — so
each of the three GPU objects is released exactly once, nothing references
them afterwards, and the windowing teardown is the final step before
returning 0. -/
theorem c7_teardown_order (env : Env) (n fuel : Nat)
    (hw : env.windowOk = true) (hg : env.gladOk = true)
    (hv : env.vsOk = true) (hf : env.fsOk = true)
    (hc : (env.esc n || env.osClose n) = true) (hfuel : n + 2 ≤ fuel) :
    ∃ t, (programRun env fuel).1 = t ++ teardownEvents ∧
      t.filter isTeardownOp = [] ∧
      teardownEvents =
        [Event.glDeleteVertexArrays vao_id, Event.glDeleteBuffers vbo_id,
         Event.glDeleteProgram shader_program_id, Event.glfwTerminate] ∧
      (programRun env fuel).2 = some 0 := by
  have hdone := runLoop_closes env shader_program_id vao_id n hc fuel 0 false
    (Nat.zero_le n) (by omega)
  refine ⟨(init_window env).1 ++ (get_shader_program env).1 ++ setupEvents ++
    (runLoop env shader_program_id vao_id fuel 0 false).1, ?_, ?_, rfl, ?_⟩
  · simp [programRun, init_window, get_shader_program, hw, hg, hv, hf, hdone]
  · simp [init_window, get_shader_program, hw, hg, hv, hf, setupEvents,
      List.filter_append, runLoop_no_teardown, isTeardownOp]
  · simp [programRun, init_window, get_shader_program, hw, hg, hv, hf, hdone]

/-- Witness for C7 at a concrete environment. -/
theorem c7_teardown_order_witness :
    ∃ t, (programRun envAllOk 2).1 = t ++ teardownEvents ∧
      t.filter isTeardownOp = [] ∧
      teardownEvents =
        [Event.glDeleteVertexArrays vao_id, Event.glDeleteBuffers vbo_id,
         Event.glDeleteProgram shader_program_id, Event.glfwTerminate] ∧
      (programRun envAllOk 2).2 = some 0 :=
  c7_teardown_order envAllOk 0 2 rfl rfl rfl rfl rfl (by omega)

/-- C8 counterexample: the two setup-failure paths are not handled
identically, and the window-creation path does perform a cleanup call: on
window-creation failure the program calls `glfwTerminate` before exiting,
while on loader failure it exits with no cleanup call at all. -/
theorem c8_counterexample :
    (programRun envNoWindow 2).2 = some (-1) ∧
    (programRun envNoGlad 2).2 = some (-1) ∧
    Event.glfwTerminate ∈ (programRun envNoWindow 2).1 ∧
    Event.glfwTerminate ∉ (programRun envNoGlad 2).1 := by
  refine ⟨rfl, rfl, ?_, ?_⟩ <;>
    simp [programRun, init_window, envNoWindow, envNoGlad, envAllOk]

/-- C8 amended: both setup-failure paths print one diagnostic and exit
with -1 before creating any GPU resource or reaching the render loop, but
they differ: the window-creation failure path additionally calls
`glfwTerminate` (tearing the windowing system back down) as its last
action before exiting, whereas the loader failure path performs no cleanup
call whatsoever. -/
theorem c8_setup_failure_paths (env : Env) (fuel : Nat) :
    (env.windowOk = false →
      programRun env fuel =
        ([Event.glfwInit env.glfwInitOk,
          Event.glfwWindowHint GLFW_CONTEXT_VERSION_MAJOR 3,
          Event.glfwWindowHint GLFW_CONTEXT_VERSION_MINOR 3,
          Event.glfwWindowHint GLFW_OPENGL_PROFILE GLFW_OPENGL_CORE_PROFILE,
          Event.glfwCreateWindow 800 600 "OpenGL Template" false,
          Event.printOut "Failed to create GLFW window",
          Event.glfwTerminate], some (-1))) ∧
    (env.windowOk = true → env.gladOk = false →
      programRun env fuel =
        ([Event.glfwInit env.glfwInitOk,
          Event.glfwWindowHint GLFW_CONTEXT_VERSION_MAJOR 3,
          Event.glfwWindowHint GLFW_CONTEXT_VERSION_MINOR 3,
          Event.glfwWindowHint GLFW_OPENGL_PROFILE GLFW_OPENGL_CORE_PROFILE,
          Event.glfwCreateWindow 800 600 "OpenGL Template" true,
          Event.glfwMakeContextCurrent,
          Event.gladLoadGLLoader false,
          Event.printOut "Failed to initialize GLAD"], some (-1))) := by
  constructor
  · intro hw
    simp [programRun, init_window, hw]
  · intro hw hg
    simp [programRun, init_window, hw, hg]

/-- Witness for the amended C8 at the two concrete failure environments. -/
theorem c8_setup_failure_paths_witness :
    (programRun envNoWindow 2).2 = some (-1) ∧
    (programRun envNoGlad 2).2 = some (-1) := by
  constructor
  · rw [(c8_setup_failure_paths envNoWindow 2).1 rfl]
  · rw [(c8_setup_failure_paths envNoGlad 2).2 rfl rfl]

/-- C9: when the vertex shader compiles but the fragment shader does not,
`get_shader_program`'s trace shows `glLinkProgram` and `glUseProgram` on
the program containing the broken shader strictly before the fragment
compile-status query, the log retrieval and the diagnostic print, and
only then does the process exit with -1. -/
theorem c9_fragment_checked_after_link (env : Env)
    (hv : env.vsOk = true) (hf : env.fsOk = false) :
    get_shader_program env =
      ([Event.glCreateShader GL_VERTEX_SHADER vertex_shader_id,
        Event.glShaderSource vertex_shader_id vertex_shader_source,
        Event.glCompileShader vertex_shader_id true,
        Event.glGetShaderiv vertex_shader_id GL_COMPILE_STATUS true,
        Event.glCreateShader GL_FRAGMENT_SHADER fragment_shader_id,
        Event.glShaderSource fragment_shader_id fragment_shader_source,
        Event.glCompileShader fragment_shader_id false,
        Event.glCreateProgram shader_program_id,
        Event.glAttachShader shader_program_id vertex_shader_id,
        Event.glAttachShader shader_program_id fragment_shader_id,
        Event.glLinkProgram shader_program_id env.linkOk,
        Event.glUseProgram shader_program_id,
        Event.glGetShaderiv fragment_shader_id GL_COMPILE_STATUS false,
        Event.glGetShaderInfoLog fragment_shader_id 512 (env.fsLog.take 511),
        Event.printCompileError
          "Fatal Error - Compilation of fragment shader failed:\n"
          (env.fsLog.take 511)],
       ProcResult.exited (-1)) := by
  simp [get_shader_program, hv, hf]

/-- Witness for C9 at a concrete environment with a broken fragment
shader. -/
theorem c9_fragment_checked_after_link_witness :
    (get_shader_program envBadFS).2 = ProcResult.exited (-1) := by
  rw [c9_fragment_checked_after_link envBadFS rfl rfl]

/-- C10: the result of `glfwInit` is never checked: the trace (up to the
result recorded inside the `glfwInit` event itself) and the exit status
are the same whether GLFW initialisation succeeded or failed, and every
run unconditionally proceeds to set the three window hints and attempt
window creation — the first five events of every trace. -/
theorem c10_glfwInit_result_unchecked (env : Env) (fuel : Nat) (b : Bool) :
    ((programRun { env with glfwInitOk := b } fuel).1.map scrubGlfwInit =
      (programRun env fuel).1.map scrubGlfwInit) ∧
    (programRun { env with glfwInitOk := b } fuel).2 = (programRun env fuel).2 ∧
    ∃ rest, (programRun env fuel).1 =
      Event.glfwInit env.glfwInitOk ::
      Event.glfwWindowHint GLFW_CONTEXT_VERSION_MAJOR 3 ::
      Event.glfwWindowHint GLFW_CONTEXT_VERSION_MINOR 3 ::
      Event.glfwWindowHint GLFW_OPENGL_PROFILE GLFW_OPENGL_CORE_PROFILE ::
      Event.glfwCreateWindow 800 600 "OpenGL Template" env.windowOk :: rest := by
  obtain ⟨g, w, gl, vs, fs, lk, vl, fg, e, o⟩ := env
  have hloop := runLoop_congr ⟨b, w, gl, vs, fs, lk, vl, fg, e, o⟩
    ⟨g, w, gl, vs, fs, lk, vl, fg, e, o⟩ rfl rfl
  refine ⟨?_, ?_, ?_⟩
  · cases w
    · simp [programRun, init_window, scrubGlfwInit]
    · cases gl
      · simp [programRun, init_window, scrubGlfwInit]
      · cases vs
        · simp [programRun, init_window, get_shader_program, scrubGlfwInit]
        · cases fs
          · simp [programRun, init_window, get_shader_program, scrubGlfwInit]
          · cases hl : (runLoop ⟨g, true, true, true, true, lk, vl, fg, e, o⟩
                shader_program_id vao_id fuel 0 false).2 <;>
              simp [programRun, init_window, get_shader_program, hloop, hl,
                scrubGlfwInit]
  · cases w
    · simp [programRun, init_window]
    · cases gl
      · simp [programRun, init_window]
      · cases vs
        · simp [programRun, init_window, get_shader_program]
        · cases fs
          · simp [programRun, init_window, get_shader_program]
          · cases hl : (runLoop ⟨g, true, true, true, true, lk, vl, fg, e, o⟩
                shader_program_id vao_id fuel 0 false).2 <;>
              simp [programRun, init_window, get_shader_program, hloop, hl]
  · cases w
    · exact ⟨_, rfl⟩
    · cases gl
      · exact ⟨_, rfl⟩
      · cases vs
        · exact ⟨_, rfl⟩
        · cases fs
          · exact ⟨_, rfl⟩
          · cases hl : (runLoop ⟨g, true, true, true, true, lk, vl, fg, e, o⟩
                shader_program_id vao_id fuel 0 false).2
            · simp [programRun, init_window, get_shader_program, hl]
            · simp [programRun, init_window, get_shader_program, hl]

end OpenGLTemplate
